import Mathlib

set_option maxRecDepth 8192

/-!
Verification development for the transformers repository fragment:
the pix2seq checkpoint conversion script (`rename_key` and the driver
`convert_pix2seq_checkpoint`), `DPTConfig`, and `OneFormerConfig`.

Names are modelled as `List Char` (Python `str`); tensors as a shape
(`List Nat`, as numpy `shape`) plus flat row-major data (`List Rat`, a
stand-in for the numeric payload — the claims under verification only
inspect shapes, element counts and whole-value equality, never float
arithmetic).
-/

/-- Coerce a string literal to the character-list representation of names. -/
def cs (s : String) : List Char := s.data

/-- Python `pat in s` (substring containment). The empty pattern is contained
in every string, as in Python. -/
def hasSubstr (pat : List Char) : List Char → Bool
  | [] => pat.isEmpty
  | c :: rest => pat.isPrefixOf (c :: rest) || hasSubstr pat rest

/-- Fuel-driven worker for `replaceAll`; the fuel is an upper bound on the
length of the string still to scan, so the `0` branch is reached only with
the empty string. Replacement is left-to-right and non-overlapping, as in
Python `str.replace`. -/
def replaceAllAux (rep pat : List Char) : Nat → List Char → List Char
  | 0, s => s
  | _ + 1, [] => []
  | fuel + 1, c :: rest =>
    if pat.isPrefixOf (c :: rest) then
      rep ++ replaceAllAux rep pat fuel (List.drop (pat.length - 1) rest)
    else
      c :: replaceAllAux rep pat fuel rest

/-- Python `s.replace(pat, rep)` for a non-empty pattern; for the empty
pattern we return `s` unchanged (the source never replaces an empty
pattern, so this corner is never exercised). -/
def replaceAll (s pat rep : List Char) : List Char :=
  if pat.isEmpty then s else replaceAllAux rep pat s.length s

/-- One `if pat in name: name = name.replace(pat, rep)` rule of the source. -/
def renameStep (pat rep name : List Char) : List Char :=
  if hasSubstr pat name then replaceAll name pat rep else name

/-- Row-major flat index of a multi-index (numpy C order). -/
def flatIndex : List Nat → List Nat → Nat
  | _ :: dtl, i :: itl => i * dtl.prod + flatIndex dtl itl
  | _, _ => 0

/-- Inverse of `flatIndex`: multi-index of a flat position in a shape. -/
def unflattenIndex : List Nat → Nat → List Nat
  | [], _ => []
  | _ :: dtl, k => (k / dtl.prod) :: unflattenIndex dtl (k % dtl.prod)

/-- A numpy ndarray: shape plus flat row-major data. -/
structure Tensor where
  shape : List Nat
  data : List Rat
deriving DecidableEq, Repr

/-- Element count of a tensor (numpy `size`, the product of the shape). -/
def Tensor.count (t : Tensor) : Nat := t.shape.prod

/-- Source line 113: `np.reshape(param, (param.shape[-1], -1))`. A row-major
reshape keeps the flat data; the inferred axis is the total size divided by
the last axis (the source only reaches this with an exactly divisible
rank-3 shape). -/
def Tensor.reshapeOutProj (t : Tensor) : Tensor :=
  ⟨[(t.shape.getLast?).getD 1, t.shape.prod / (t.shape.getLast?).getD 1], t.data⟩

/-- Source line 120: `np.reshape(param, (param.shape[0], -1))`. -/
def Tensor.reshapeQkv (t : Tensor) : Tensor :=
  ⟨[t.shape.headD 1, t.shape.prod / t.shape.headD 1], t.data⟩

/-- Source line 123: `param.flatten()`. -/
def Tensor.flattenT (t : Tensor) : Tensor :=
  ⟨[t.shape.prod], t.data⟩

/-- Source line 133: `np.transpose(param)` — reverses all axes; result index
`j` reads source index `reverse j`. -/
def Tensor.transposeAll (t : Tensor) : Tensor :=
  ⟨t.shape.reverse,
   (List.range t.shape.reverse.prod).map fun k =>
     t.data.getD (flatIndex t.shape ((unflattenIndex t.shape.reverse k).reverse)) 0⟩

/-- Source line 131: `np.transpose(param, axes=(3, 2, 0, 1))`; result index
`(j0, j1, j2, j3)` reads source index `(j2, j3, j1, j0)`. numpy raises on a
tensor of rank other than 4; the source only applies this to rank-4
patch-embedding kernels, so the other branch (identity here) is never
exercised. -/
def Tensor.transpose4 (t : Tensor) : Tensor :=
  match t.shape with
  | [s0, s1, s2, s3] =>
    ⟨[s3, s2, s0, s1],
     (List.range (s3 * (s2 * (s0 * (s1 * 1))))).map fun k =>
       match unflattenIndex [s3, s2, s0, s1] k with
       | [j0, j1, j2, j3] => t.data.getD (flatIndex t.shape [j2, j3, j1, j0]) 0
       | _ => 0⟩
  | _ => t

/-- Source lines 22–107: the ordered structural substring rewrite rules of
`rename_key`, applied cumulatively in source order. -/
def structuralRename (name : List Char) : List Char :=
  let name := renameStep (cs "/.ATTRIBUTES/VARIABLE_VALUE") (cs "") name
  let name := renameStep (cs "/") (cs ".") name
  -- stem conv
  let name := renameStep (cs "model.encoder.stem_conv") (cs "encoder.embeddings.patch_embeddings.projection") name
  let name := renameStep (cs "model.encoder.stem_conv.bias") (cs "encoder.embeddings.patch_embeddings.projection") name
  -- stem layernorm
  let name := renameStep (cs "model.encoder.stem_ln") (cs "encoder.embeddings.patch_embeddings.layer_norm") name
  -- source line 34 tests the pattern with the `.beta` suffix but replaces the bare pattern
  let name := if hasSubstr (cs "model.encoder.stem_ln.beta") name then
      replaceAll name (cs "model.encoder.stem_ln") (cs "encoder.embeddings.patch_embeddings.layer_norm")
    else name
  -- encoder projection
  let name := renameStep (cs "model.proj_ln") (cs "projection.layernorm") name
  let name := renameStep (cs "model.proj_mlp.layernorms.0") (cs "projection.projection_mlp.layernorm") name
  let name := renameStep (cs "model.proj_mlp.mlp_layers.0") (cs "projection.projection_mlp") name
  let name := renameStep (cs "model.proj") (cs "projection.projection") name
  -- decoder embeddings, output bias and layernorm
  let name := renameStep (cs "model.decoder.ar_decoder.Stoken_embedding") (cs "decoder.embed_tokens.weight") name
  let name := renameStep (cs "model.decoder.ar_decoder.Sseq_pos_embedding") (cs "decoder.embed_positions.embeddings") name
  let name := renameStep (cs "model.decoder.ar_decoder.Soutp_bias") (cs "lm_head.bias") name
  let name := renameStep (cs "model.decoder.output_ln") (cs "output_layernorm") name
  -- decoder layers
  let name := renameStep (cs "model.decoder.decoder.dec_layers") (cs "decoder.layers") name
  let name := renameStep (cs "self_ln") (cs "self_attn_layer_norm") name
  let name := renameStep (cs "cross_ln") (cs "encoder_attn_layer_norm") name
  let name := renameStep (cs "self_mha._query_dense") (cs "self_attn.q_proj") name
  let name := renameStep (cs "self_mha._key_dense") (cs "self_attn.k_proj") name
  let name := renameStep (cs "self_mha._value_dense") (cs "self_attn.v_proj") name
  let name := renameStep (cs "self_mha._output_dense") (cs "self_attn.out_proj") name
  let name := renameStep (cs "cross_mha._query_dense") (cs "encoder_attn.q_proj") name
  let name := renameStep (cs "cross_mha._key_dense") (cs "encoder_attn.k_proj") name
  let name := renameStep (cs "cross_mha._value_dense") (cs "encoder_attn.v_proj") name
  let name := renameStep (cs "cross_mha._output_dense") (cs "encoder_attn.out_proj") name
  let name := if hasSubstr (cs "decoder") name then
      let name := renameStep (cs "mlp.mlp_layers.0.dense1") (cs "fc1") name
      let name := renameStep (cs "mlp.mlp_layers.0.dense2") (cs "fc2") name
      renameStep (cs "mlp.layernorms.0") (cs "layernorm") name
    else name
  -- encoder layers
  let name := renameStep (cs "model.encoder.transformer_encoder.enc_layers") (cs "encoder.layer") name
  let name := renameStep (cs "mha_ln") (cs "layernorm_before") name
  let name := renameStep (cs "mha._output_dense") (cs "attention.output.dense") name
  let name := renameStep (cs "mha") (cs "attention.attention") name
  let name := renameStep (cs "_query_dense") (cs "query") name
  let name := renameStep (cs "_key_dense") (cs "key") name
  let name := renameStep (cs "_value_dense") (cs "value") name
  let name := renameStep (cs "mlp.mlp_layers.0.dense1") (cs "intermediate.dense") name
  let name := renameStep (cs "mlp.mlp_layers.0.dense2") (cs "output.dense") name
  let name := renameStep (cs "mlp.layernorms.0") (cs "layernorm_after") name
  -- output layer norm
  renameStep (cs "model.encoder.output_ln") (cs "layernorm") name

/-- Source line 115: the q/k/v marker disjunction. -/
def qkvMarker (name : List Char) : Bool :=
  hasSubstr (cs "query") name || hasSubstr (cs "key") name || hasSubstr (cs "value") name ||
  hasSubstr (cs "q_proj") name || hasSubstr (cs "k_proj") name || hasSubstr (cs "v_proj") name

/-- Source line 110: the attention output-projection marker disjunction. -/
def outProjMarker (name : List Char) : Bool :=
  hasSubstr (cs "attention.output.dense") name || hasSubstr (cs "out_proj") name

/-- Source lines 110–124: shape adaptation keyed off the structurally
rewritten name. -/
def shapeAdapt (name : List Char) (param : Tensor) : Tensor :=
  let param := if outProjMarker name && hasSubstr (cs "kernel") name then param.reshapeOutProj else param
  if qkvMarker name then
    if hasSubstr (cs "kernel") name then param.reshapeQkv
    else if hasSubstr (cs "bias") name then param.flattenT
    else param
  else param

/-- Source lines 127–133, tensor part: the kernel transpose. The
patch-embedding test on line 129 runs after `kernel` has been renamed to
`weight` in the name, hence the `replaceAll` in the condition. -/
def kernelAdapt (name : List Char) (param : Tensor) : Tensor :=
  if hasSubstr (cs "kernel") name then
    if hasSubstr (cs "patch_embeddings") (replaceAll name (cs "kernel") (cs "weight")) then param.transpose4
    else param.transposeAll
  else param

/-- Source lines 127–137, name part: kernel/gamma/beta renames. -/
def kgbRename (name : List Char) : List Char :=
  let name := renameStep (cs "kernel") (cs "weight") name
  let name := renameStep (cs "gamma") (cs "weight") name
  renameStep (cs "beta") (cs "bias") name

/-- Source line 140 condition, negated: the name is exempt from the
`model.` prefix when it starts with `lm_head` or contains
`output_layernorm`. -/
def prefixExempt (name : List Char) : Bool :=
  (cs "lm_head").isPrefixOf name || hasSubstr (cs "output_layernorm") name

/-- The fully rewritten name just before the prefix step (structural rules
followed by the kernel/gamma/beta renames). -/
def preRewrittenName (name : List Char) : List Char :=
  kgbRename (structuralRename name)

/-- Source lines 139–141: add the `model.` prefix to a non-exempt name
(line 140 writes the exemption as two negations conjoined). -/
def rootApply (name : List Char) : List Char :=
  if prefixExempt name then name else cs "model." ++ name

/-- Source lines 20–143: `rename_key(name, param)`. The name pipeline never
reads the tensor, and the tensor pipeline reads the name as it stood after
the structural rules, exactly as in the source's interleaved updates. -/
def rename_key (name : List Char) (param : Tensor) : List Char × Tensor :=
  (rootApply (preRewrittenName name),
   kernelAdapt (structuralRename name) (shapeAdapt (structuralRename name) param))

/-- The driver's per-variable rewrite loop (source lines 163–165), output
order matching input order. -/
def processAll (entries : List (List Char × Tensor)) : List (List Char × Tensor) :=
  entries.map fun e => rename_key e.1 e.2

/-- Target key of the language-model output projection (source line 168). -/
def lmHeadKey : List Char := cs "lm_head.weight"

/-- Target key of the decoder input-token embedding (source line 168). -/
def embedTokensKey : List Char := cs "model.decoder.embed_tokens.weight"

/-- The driver's `state_dict` accumulation (source lines 162–165): a Python
dict modelled extensionally as a lookup function, with each assignment
`state_dict[name] = param` shadowing any earlier binding of the same key. -/
def buildStateDict (vars : List (List Char × Tensor)) : List Char → Option Tensor :=
  vars.foldl
    (fun d e =>
      let r := rename_key e.1 e.2
      fun q => if q = r.1 then some r.2 else d q)
    (fun _ => Option.none)

/-- Source line 168: `state_dict["lm_head.weight"] =
state_dict["model.decoder.embed_tokens.weight"]`. A missing right-hand key
is a Python `KeyError`, modelled as `none`. -/
def tieLmHead (d : List Char → Option Tensor) : Option (List Char → Option Tensor) :=
  match d embedTokensKey with
  | Option.none => Option.none
  | some t => some fun q => if q = lmHeadKey then some t else d q

/-- The driver's state-dict assembly followed by the single tying step
(source lines 162–168). -/
def convertStateDict (vars : List (List Char × Tensor)) : Option (List Char → Option Tensor) :=
  tieLmHead (buildStateDict vars)

/-! ### DPTConfig (src/transformers/models/dpt/configuration_dpt.py) -/

/-- The admissible readout types (source line 159). -/
def readoutTypesSupported : List (List Char) := [cs "ignore", cs "add", cs "project"]

/-- The `ValueError` message of source line 160; the source text quotes the
three options in square brackets and single quotes, rendered here without
the quoting punctuation. -/
def dptReadoutErr : List Char := cs "Readout_type must be one of ignore, add, project"

/-- The validated attribute bag built by `DPTConfig.__init__`
(source lines 145–171). `is_encoder_decoder` is accepted by the constructor
but never stored, as in the source. -/
structure DPTConfig where
  hidden_size : Nat
  num_hidden_layers : Nat
  num_attention_heads : Nat
  intermediate_size : Nat
  hidden_act : List Char
  hidden_dropout_prob : Rat
  attention_probs_dropout_prob : Rat
  initializer_range : Rat
  layer_norm_eps : Rat
  image_size : Nat
  patch_size : Nat
  num_channels : Nat
  qkv_bias : Bool
  out_indices : List Nat
  readout_type : List Char
  reassemble_factors : List Rat
  neck_hidden_sizes : List Nat
  fusion_hidden_size : Nat
  in_index : Int
  use_batch_norm_in_fusion_residual : Bool
  use_auxiliary_head : Bool
  auxiliary_loss_weight : Rat
  semantic_loss_ignore_index : Nat
  semantic_classifier_dropout : Rat
deriving DecidableEq, Repr

/-- `DPTConfig.__init__` (source lines 114–171): the only failure is the
readout-type validation on lines 159–160; every other argument is stored
unconditionally (the source stores the fields preceding the check before
raising, but the partially initialised object is discarded, so construction
as a whole fails exactly when the check fails). -/
def DPTConfig.init (hidden_size num_hidden_layers num_attention_heads intermediate_size : Nat)
    (hidden_act : List Char)
    (hidden_dropout_prob attention_probs_dropout_prob initializer_range layer_norm_eps : Rat)
    (is_encoder_decoder : Bool) (image_size patch_size num_channels : Nat) (qkv_bias : Bool)
    (out_indices : List Nat) (readout_type : List Char) (reassemble_factors : List Rat)
    (neck_hidden_sizes : List Nat) (fusion_hidden_size : Nat) (in_index : Int)
    (use_batch_norm_in_fusion_residual use_auxiliary_head : Bool) (auxiliary_loss_weight : Rat)
    (semantic_loss_ignore_index : Nat) (semantic_classifier_dropout : Rat) :
    Except (List Char) DPTConfig :=
  if readout_type ∈ readoutTypesSupported then
    Except.ok
      ⟨hidden_size, num_hidden_layers, num_attention_heads, intermediate_size, hidden_act,
       hidden_dropout_prob, attention_probs_dropout_prob, initializer_range, layer_norm_eps,
       image_size, patch_size, num_channels, qkv_bias, out_indices, readout_type,
       reassemble_factors, neck_hidden_sizes, fusion_hidden_size, in_index,
       use_batch_norm_in_fusion_residual, use_auxiliary_head, auxiliary_loss_weight,
       semantic_loss_ignore_index, semantic_classifier_dropout⟩
  else Except.error dptReadoutErr

/-- `DPTConfig()` with every argument at its source default
(source lines 114–141). -/
def DPTConfig.initDefault : Except (List Char) DPTConfig :=
  DPTConfig.init 768 12 12 3072 (cs "gelu") 0 0 0.02 0.000000000001 false 384 16 3 true
    [2, 5, 8, 11] (cs "project") [4, 2, 1, 0.5] [96, 192, 384, 768] 256 (-1) false true 0.4
    255 0.1

/-! ### OneFormerConfig (src/transformers/models/oneformer/configuration_oneformer.py) -/

/-- A configuration value: Python numbers, booleans, strings and the list
values occurring in the sub-configuration dictionaries. -/
inductive CVal where
  | num (q : Rat)
  | boolean (b : Bool)
  | strv (s : List Char)
  | numList (l : List Rat)
  | strList (l : List (List Char))
deriving DecidableEq, Repr

/-- A Python dictionary of configuration values, ordered as inserted. -/
abbrev Dict := List (List Char × CVal)

/-- Python `d[k]` read, as an `Option`. -/
def dlookup : Dict → List Char → Option CVal
  | [], _ => Option.none
  | (k1, v) :: rest, k => if k1 = k then some v else dlookup rest k

/-- Python `d.pop(k)`: the value and the dictionary without the key, or
`none` (a `KeyError`) when the key is absent. -/
def popKey : Dict → List Char → Option (CVal × Dict)
  | [], _ => Option.none
  | (k1, v) :: rest, k =>
    if k1 = k then some (v, rest)
    else (popKey rest k).map fun p => (p.1, (k1, v) :: p.2)

/-- Modelled from the spec: the backbone sub-record. The concrete backbone
configuration classes (`MaskFormerSwinConfig` and the classes reached
through `CONFIG_MAPPING` / `from_dict`) are outside `src/`; per the spec
they are records carrying a `model_type` discriminator plus their own
hyperparameter fields. -/
structure BackboneConfig where
  model_type : List Char
  fields : Dict
deriving DecidableEq, Repr

/-- Modelled from the spec: recursive serialization of the backbone
sub-record (`PretrainedConfig.to_dict` of the nested config) — its own
fields as a dictionary, stamped with its `model_type` discriminator. -/
def BackboneConfig.to_dict (b : BackboneConfig) : Dict :=
  (cs "model_type", CVal.strv b.model_type) :: b.fields

/-- The `backbone_config` argument of `OneFormerConfig.__init__`: omitted,
an already-built config object, or a plain dictionary. -/
inductive BackboneArg where
  | unspecified
  | obj (c : BackboneConfig)
  | fromDict (d : Dict)
deriving DecidableEq, Repr

/-- The error taxonomy of construction: Python `ValueError` (the
configuration error of the spec) versus `KeyError` (a missing-key lookup
failure, carrying the missing key). -/
inductive ConfigErr where
  | valueError (msg : List Char)
  | keyError (key : List Char)
deriving DecidableEq, Repr

/-- Source line 84: `backbones_supported`. -/
def backbones_supported : List (List Char) := [cs "swin", cs "dinat", cs "maskformer-swin"]

/-- The `ValueError` message of source lines 158–161 for an unsupported
backbone discriminator. -/
def backboneErrMsg (t : List Char) : List Char :=
  cs "Backbone " ++ t ++ cs " not supported, please use one of swin,dinat,maskformer-swin"

/-- Source lines 118–139: the default `general_config` dictionary. -/
def defaultGeneralConfig : Dict :=
  [(cs "ignore_value", CVal.num 255),
   (cs "num_classes", CVal.num 150),
   (cs "num_queries", CVal.num 150),
   (cs "no_object_weight", CVal.num 0.1),
   (cs "deep_supervision", CVal.boolean true),
   (cs "class_weight", CVal.num 2.0),
   (cs "mask_weight", CVal.num 5.0),
   (cs "dice_weight", CVal.num 5.0),
   (cs "contrastive_weight", CVal.num 0.5),
   (cs "contrastive_temperature", CVal.num 0.07),
   (cs "train_num_points", CVal.num 12544),
   (cs "oversample_ratio", CVal.num 3.0),
   (cs "importance_sample_ratio", CVal.num 0.75),
   (cs "init_std", CVal.num 0.02),
   (cs "init_xavier_std", CVal.num 1.0),
   (cs "layer_norm_eps", CVal.num 0.00001),
   (cs "is_train", CVal.boolean false),
   (cs "use_auxiliary_loss", CVal.boolean true),
   (cs "output_auxiliary_logits", CVal.boolean true),
   (cs "strides", CVal.numList [4, 8, 16, 32])]

/-- Source lines 141–152: the default backbone, a
`MaskFormerSwinConfig` built with the listed arguments (no discriminator
check on this path). -/
def defaultBackboneConfig : BackboneConfig :=
  ⟨cs "maskformer-swin",
   [(cs "image_size", CVal.num 224),
    (cs "in_channels", CVal.num 3),
    (cs "patch_size", CVal.num 4),
    (cs "embed_dim", CVal.num 96),
    (cs "depths", CVal.numList [2, 2, 6, 2]),
    (cs "num_heads", CVal.numList [3, 6, 12, 24]),
    (cs "window_size", CVal.num 7),
    (cs "drop_path_rate", CVal.num 0.3),
    (cs "out_features", CVal.strList [cs "stage1", cs "stage2", cs "stage3", cs "stage4"])]⟩

/-- Source lines 166–175: the default `text_encoder_config` dictionary. -/
def defaultTextEncoderConfig : Dict :=
  [(cs "task_seq_len", CVal.num 77),
   (cs "max_seq_len", CVal.num 77),
   (cs "text_encoder_width", CVal.num 256),
   (cs "text_encoder_context_length", CVal.num 77),
   (cs "text_encoder_num_layers", CVal.num 6),
   (cs "text_encoder_vocab_size", CVal.num 49408),
   (cs "text_encoder_proj_layers", CVal.num 2),
   (cs "text_encoder_n_ctx", CVal.num 16)]

/-- Source lines 177–194: the default `decoder_config` dictionary. -/
def defaultDecoderConfig : Dict :=
  [(cs "conv_dim", CVal.num 256),
   (cs "mask_dim", CVal.num 256),
   (cs "hidden_dim", CVal.num 256),
   (cs "encoder_feedforward_dim", CVal.num 1024),
   (cs "norm", CVal.strv (cs "GN")),
   (cs "encoder_layers", CVal.num 6),
   (cs "decoder_layers", CVal.num 10),
   (cs "use_task_norm", CVal.boolean true),
   (cs "num_heads", CVal.num 8),
   (cs "dropout", CVal.num 0.1),
   (cs "dim_feedforward", CVal.num 2048),
   (cs "pre_norm", CVal.boolean false),
   (cs "enforce_input_proj", CVal.boolean false),
   (cs "query_dec_layers", CVal.num 2),
   (cs "common_stride", CVal.num 4)]

/-- Source lines 141–164: `_setup_cfg`'s backbone resolution. An omitted
backbone takes the default with no check; a supplied one has its
`model_type` discriminator popped (dict) or read (object) and validated
against `backbones_supported`, raising `ValueError` otherwise; the
validated dictionary is rebuilt into a config object (`CONFIG_MAPPING` plus
`from_dict`, modelled from the spec as always succeeding for a supported
discriminator). A non-string `model_type` value in a dict is never in the
supported list, hence also a `ValueError` (its message interpolates the
value in the source; modelled with the empty rendering). -/
def setup_backbone : BackboneArg → Except ConfigErr BackboneConfig
  | BackboneArg.unspecified => Except.ok defaultBackboneConfig
  | BackboneArg.obj c =>
    if c.model_type ∈ backbones_supported then Except.ok c
    else Except.error (ConfigErr.valueError (backboneErrMsg c.model_type))
  | BackboneArg.fromDict d =>
    match popKey d (cs "model_type") with
    | Option.none => Except.error (ConfigErr.keyError (cs "model_type"))
    | some (CVal.strv s, rest) =>
      if s ∈ backbones_supported then Except.ok ⟨s, rest⟩
      else Except.error (ConfigErr.valueError (backboneErrMsg s))
    | some (_, _) => Except.error (ConfigErr.valueError (backboneErrMsg (cs "")))

/-- The composite configuration object: the four resolved sub-records plus
the five derived top-level fields (source lines 98–107). -/
structure OneFormerConfig where
  general_config : Dict
  backbone_config : BackboneConfig
  text_encoder_config : Dict
  decoder_config : Dict
  hidden_size : CVal
  num_attention_heads : CVal
  num_hidden_layers : CVal
  init_std : CVal
  init_xavier_std : CVal
deriving DecidableEq, Repr

/-- `OneFormerConfig.__init__` (source lines 86–109): `_setup_cfg` resolves
the four sub-records (a supplied dictionary is used as-is, never completed
with defaults), then the five derived fields are read by subscript in
source order — `hidden_dim`, `num_heads`, `decoder_layers` from the decoder
record and `init_std`, `init_xavier_std` from the general record — each a
`KeyError` when absent. -/
def OneFormerConfig.init (general_config : Option Dict) (backbone_config : BackboneArg)
    (text_encoder_config : Option Dict) (decoder_config : Option Dict) :
    Except ConfigErr OneFormerConfig :=
  match setup_backbone backbone_config with
  | Except.error e => Except.error e
  | Except.ok backbone =>
    let general := general_config.getD defaultGeneralConfig
    let text := text_encoder_config.getD defaultTextEncoderConfig
    let decoder := decoder_config.getD defaultDecoderConfig
    match dlookup decoder (cs "hidden_dim") with
    | Option.none => Except.error (ConfigErr.keyError (cs "hidden_dim"))
    | some hidden =>
      match dlookup decoder (cs "num_heads") with
      | Option.none => Except.error (ConfigErr.keyError (cs "num_heads"))
      | some heads =>
        match dlookup decoder (cs "decoder_layers") with
        | Option.none => Except.error (ConfigErr.keyError (cs "decoder_layers"))
        | some layers =>
          match dlookup general (cs "init_std") with
          | Option.none => Except.error (ConfigErr.keyError (cs "init_std"))
          | some istd =>
            match dlookup general (cs "init_xavier_std") with
            | Option.none => Except.error (ConfigErr.keyError (cs "init_xavier_std"))
            | some ixstd =>
              Except.ok ⟨general, backbone, text, decoder, hidden, heads, layers, istd, ixstd⟩

/-- A value of the serialized snapshot: a plain value, a nested dictionary,
or a raw (non-serialized) Python object reference. -/
inductive SVal where
  | prim (v : CVal)
  | dict (d : Dict)
  | obj (b : BackboneConfig)
deriving DecidableEq, Repr

/-- Python dict assignment on the snapshot: replace in place or append. -/
def supdate : List (List Char × SVal) → List Char → SVal → List (List Char × SVal)
  | [], k, v => [(k, v)]
  | (k1, v1) :: rest, k, v =>
    if k1 = k then (k, v) :: rest else (k1, v1) :: supdate rest k v

/-- Lookup in the serialized snapshot. -/
def slookup : List (List Char × SVal) → List Char → Option SVal
  | [], _ => Option.none
  | (k1, v) :: rest, k => if k1 = k then some v else slookup rest k

/-- `OneFormerConfig.to_dict` (source lines 197–205): deep-copy
`self.__dict__` (here, the fields in assignment order, the backbone still a
raw object reference), then overwrite `backbone_config` with the backbone's
own recursive serialization and stamp the class `model_type`. -/
def OneFormerConfig.to_dict (c : OneFormerConfig) : List (List Char × SVal) :=
  let output :=
    [(cs "general_config", SVal.dict c.general_config),
     (cs "backbone_config", SVal.obj c.backbone_config),
     (cs "text_encoder_config", SVal.dict c.text_encoder_config),
     (cs "decoder_config", SVal.dict c.decoder_config),
     (cs "hidden_size", SVal.prim c.hidden_size),
     (cs "num_attention_heads", SVal.prim c.num_attention_heads),
     (cs "num_hidden_layers", SVal.prim c.num_hidden_layers),
     (cs "init_std", SVal.prim c.init_std),
     (cs "init_xavier_std", SVal.prim c.init_xavier_std)]
  let output := supdate output (cs "backbone_config") (SVal.dict c.backbone_config.to_dict)
  supdate output (cs "model_type") (SVal.prim (CVal.strv (cs "oneformer")))

/-! ### Concrete inputs used by witnesses and the counterexample -/

/-- A one-element rank-1 tensor. -/
def tZero : Tensor := ⟨[1], [0]⟩

/-- A rank-3 tensor of shape `(2, 3, 4)` (all-zero payload; the shape laws
do not read the data). -/
def tQkv : Tensor := ⟨[2, 3, 4], []⟩

/-- A rank-4 stem-convolution kernel of shape `(1, 1, 3, 768)`. -/
def tStem : Tensor := ⟨[1, 1, 3, 768], []⟩

/-- A rank-1 stem-convolution bias of shape `(768,)`. -/
def tBias : Tensor := ⟨[768], []⟩

/-- A one-variable source checkpoint holding only the decoder token
embedding. -/
def varsWitness : List (List Char × Tensor) :=
  [(cs "model/decoder/ar_decoder/Stoken_embedding", tQkv)]

/-! ### Helper lemmas -/

/-- A list is a Boolean prefix of itself followed by anything. -/
theorem isPrefixOf_append_self (l r : List Char) : l.isPrefixOf (l ++ r) = true := by
  induction l with
  | nil => simp
  | cons a t ih => simp [ih]

/-- The two components of `rename_key`: the fully rewritten name with the
conditional `model.` prefix, and the adapted tensor keyed off the
structurally rewritten name. -/
theorem rename_key_eq (n : List Char) (p : Tensor) :
    rename_key n p = (rootApply (preRewrittenName n),
      kernelAdapt (structuralRename n) (shapeAdapt (structuralRename n) p)) := rfl

/-- The name component of `rename_key`. -/
theorem rename_key_fst (n : List Char) (p : Tensor) :
    (rename_key n p).1 = rootApply (preRewrittenName n) := by
  simp only [rename_key_eq]

/-- The tensor component of `rename_key`. -/
theorem rename_key_snd (n : List Char) (p : Tensor) :
    (rename_key n p).2 = kernelAdapt (structuralRename n) (shapeAdapt (structuralRename n) p) := by
  simp only [rename_key_eq]

/-- On a q/k/v kernel name that is not an output-projection name, the shape
adaptation is the `(shape[0], -1)` reshape. -/
theorem shapeAdapt_qkvKernel (n : List Char) (p : Tensor) (h1 : qkvMarker n = true)
    (h2 : hasSubstr (cs "kernel") n = true) (h3 : outProjMarker n = false) :
    shapeAdapt n p = p.reshapeQkv := by
  simp [shapeAdapt, h1, h2, h3]

/-- On a name with neither marker set, the shape adaptation is the identity. -/
theorem shapeAdapt_id (n : List Char) (p : Tensor) (h1 : qkvMarker n = false)
    (h2 : outProjMarker n = false) : shapeAdapt n p = p := by
  simp [shapeAdapt, h1, h2]

/-- On a kernel name that is not a patch-embedding name after renaming, the
kernel adaptation is the full-axis transpose. -/
theorem kernelAdapt_plain (n : List Char) (p : Tensor) (h1 : hasSubstr (cs "kernel") n = true)
    (h2 : hasSubstr (cs "patch_embeddings") (replaceAll n (cs "kernel") (cs "weight")) = false) :
    kernelAdapt n p = p.transposeAll := by
  simp [kernelAdapt, h1, h2]

/-- On a patch-embedding kernel name, the kernel adaptation is the
`(3, 2, 0, 1)` axis permutation. -/
theorem kernelAdapt_patch (n : List Char) (p : Tensor) (h1 : hasSubstr (cs "kernel") n = true)
    (h2 : hasSubstr (cs "patch_embeddings") (replaceAll n (cs "kernel") (cs "weight")) = true) :
    kernelAdapt n p = p.transpose4 := by
  simp [kernelAdapt, h1, h2]

/-- On a non-kernel name, the kernel adaptation is the identity. -/
theorem kernelAdapt_id (n : List Char) (p : Tensor) (h1 : hasSubstr (cs "kernel") n = false) :
    kernelAdapt n p = p := by
  simp [kernelAdapt, h1]

/-- Shape of the `(3, 2, 0, 1)` axis permutation on a rank-4 tensor. -/
theorem transpose4_shape (t : Tensor) (s0 s1 s2 s3 : Nat) (h : t.shape = [s0, s1, s2, s3]) :
    (t.transpose4).shape = [s3, s2, s0, s1] := by
  obtain ⟨sh, da⟩ := t
  simp only at h
  subst h
  rfl

/-- Construction of `OneFormerConfig` with defaulted sub-records succeeds
whenever the backbone resolution does, yielding the documented derived
field values. -/
theorem init_ok_of_setup (b : BackboneArg) (bc : BackboneConfig)
    (h : setup_backbone b = Except.ok bc) :
    OneFormerConfig.init Option.none b Option.none Option.none =
      Except.ok ⟨defaultGeneralConfig, bc, defaultTextEncoderConfig, defaultDecoderConfig,
        CVal.num 256, CVal.num 8, CVal.num 10, CVal.num 0.02, CVal.num 1.0⟩ := by
  unfold OneFormerConfig.init
  rw [h]
  rfl

/-! ### Claim theorems -/

/-- C1, counterexample: the claim "the two exempted kinds of names never
carry the `model.` prefix" fails at the concrete input
`model/output_layernorm`: its rewritten name contains `output_layernorm`
(so it is exempt from the prefix step), yet the final name returned by
`rename_key` starts with `model.` because the rewritten name itself already
does. -/
theorem claim1_counterexample :
    prefixExempt (preRewrittenName (cs "model/output_layernorm")) = true ∧
    (cs "model.").isPrefixOf (rename_key (cs "model/output_layernorm") tZero).1 = true := by
  decide

/-- C1, amended: after all rewrite rules run, the final name of
`rename_key` starts with the module-root string `model.` if and only if the
rewritten name is not exempt (does not start with `lm_head` and does not
contain `output_layernorm`) or already starts with `model.` itself; an
exempt rewritten name is returned unchanged, with no prefix added. -/
theorem claim1_prefix_law (n : List Char) (p : Tensor) :
    ((cs "model.").isPrefixOf (rename_key n p).1 = true ↔
      (prefixExempt (preRewrittenName n) = false ∨
       (cs "model.").isPrefixOf (preRewrittenName n) = true)) ∧
    (prefixExempt (preRewrittenName n) = true → (rename_key n p).1 = preRewrittenName n) := by
  rw [rename_key_fst]
  unfold rootApply
  by_cases h : prefixExempt (preRewrittenName n) = true
  · simp [h]
  · simp only [Bool.not_eq_true] at h
    simp [h, isPrefixOf_append_self]

/-- C1, witness for the amended statement: a non-exempt name receives the
prefix, and an exempt name is returned as rewritten. -/
theorem claim1_witness :
    (cs "model.").isPrefixOf (rename_key (cs "model/proj/kernel") tZero).1 = true ∧
    (rename_key (cs "lm_head.bias") tZero).1 = preRewrittenName (cs "lm_head.bias") :=
  ⟨(claim1_prefix_law (cs "model/proj/kernel") tZero).1.mpr (Or.inl (by decide)),
   (claim1_prefix_law (cs "lm_head.bias") tZero).2 (by decide)⟩

/-- C2: a rank-3 q/k/v projection weight — a tensor whose structurally
rewritten name carries one of the q/k/v markers together with the source
`kernel` marker (and neither the output-projection nor the patch-embedding
marker) — is returned by `rename_key` as a rank-2 tensor: shape `(O, H, D)`
collapses to `(H*D, O)`, and the element count is preserved exactly. -/
theorem claim2_qkv_shape (n : List Char) (p : Tensor) (o h d : Nat)
    (hq : qkvMarker (structuralRename n) = true)
    (hk : hasSubstr (cs "kernel") (structuralRename n) = true)
    (ho : outProjMarker (structuralRename n) = false)
    (hp : hasSubstr (cs "patch_embeddings")
        (replaceAll (structuralRename n) (cs "kernel") (cs "weight")) = false)
    (hs : p.shape = [o, h, d]) (hpos : 0 < o) :
    (rename_key n p).2.shape = [h * d, o] ∧
    Tensor.count (rename_key n p).2 = Tensor.count p := by
  have h2 : (rename_key n p).2 = (p.reshapeQkv).transposeAll := by
    rw [rename_key_snd, shapeAdapt_qkvKernel _ _ hq hk ho, kernelAdapt_plain _ _ hk hp]
  have hq1 : (p.reshapeQkv).shape = [o, h * d] := by
    simp only [Tensor.reshapeQkv, hs, List.headD_cons, List.prod_cons, List.prod_nil, mul_one]
    rw [Nat.mul_div_cancel_left _ hpos]
  have hq2 : (p.reshapeQkv).transposeAll.shape = [h * d, o] := by
    simp [Tensor.transposeAll, hq1]
  constructor
  · rw [h2, hq2]
  · rw [h2]
    simp only [Tensor.count, hq2, hs, List.prod_cons, List.prod_nil]
    ring

/-- C2, witness: an encoder query kernel name with a `(2, 3, 4)` tensor
comes back with shape `(12, 2)` and the same element count. -/
theorem claim2_witness :
    (rename_key (cs "model/encoder/transformer_encoder/enc_layers/0/mha/_query_dense/kernel")
      tQkv).2.shape = [12, 2] ∧
    Tensor.count (rename_key
      (cs "model/encoder/transformer_encoder/enc_layers/0/mha/_query_dense/kernel") tQkv).2 =
      Tensor.count tQkv :=
  claim2_qkv_shape _ tQkv 2 3 4 (by decide) (by decide) (by decide) (by decide) (by decide)
    (by decide)

/-- C3: `DPTConfig` construction succeeds exactly for the readout types
`ignore`, `add` and `project`, and fails with the readout-type `ValueError`
for every other string, regardless of the remaining arguments. -/
theorem claim3_readout_validation (a1 a2 a3 a4 : Nat) (ha : List Char) (p1 p2 p3 p4 : Rat)
    (ied : Bool) (im ps nc : Nat) (qb : Bool) (oi : List Nat) (rt : List Char) (rf : List Rat)
    (nhs : List Nat) (fh : Nat) (ii : Int) (ub ua : Bool) (alw : Rat) (sli : Nat) (scd : Rat) :
    ((∃ c, DPTConfig.init a1 a2 a3 a4 ha p1 p2 p3 p4 ied im ps nc qb oi rt rf nhs fh ii ub ua
        alw sli scd = Except.ok c) ↔ rt ∈ readoutTypesSupported) ∧
    (rt ∉ readoutTypesSupported →
      DPTConfig.init a1 a2 a3 a4 ha p1 p2 p3 p4 ied im ps nc qb oi rt rf nhs fh ii ub ua alw
        sli scd = Except.error dptReadoutErr) := by
  constructor
  · by_cases hmem : rt ∈ readoutTypesSupported
    · simp [DPTConfig.init, hmem]
    · simp [DPTConfig.init, hmem]
  · intro hmem
    simp [DPTConfig.init, hmem]

/-- C3, witness: the default arguments (readout type `project`) construct,
and the same arguments with readout type `readout` fail with the
configuration error. -/
theorem claim3_witness :
    (∃ c, DPTConfig.init 768 12 12 3072 (cs "gelu") 0 0 0.02 0.000000000001 false 384 16 3 true
        [2, 5, 8, 11] (cs "project") [4, 2, 1, 0.5] [96, 192, 384, 768] 256 (-1) false true 0.4
        255 0.1 = Except.ok c) ∧
    DPTConfig.init 768 12 12 3072 (cs "gelu") 0 0 0.02 0.000000000001 false 384 16 3 true
        [2, 5, 8, 11] (cs "readout") [4, 2, 1, 0.5] [96, 192, 384, 768] 256 (-1) false true 0.4
        255 0.1 = Except.error dptReadoutErr :=
  ⟨(claim3_readout_validation 768 12 12 3072 (cs "gelu") 0 0 0.02 0.000000000001 false 384 16 3
      true [2, 5, 8, 11] (cs "project") [4, 2, 1, 0.5] [96, 192, 384, 768] 256 (-1) false true
      0.4 255 0.1).1.mpr (by decide),
   (claim3_readout_validation 768 12 12 3072 (cs "gelu") 0 0 0.02 0.000000000001 false 384 16 3
      true [2, 5, 8, 11] (cs "readout") [4, 2, 1, 0.5] [96, 192, 384, 768] 256 (-1) false true
      0.4 255 0.1).2 (by decide)⟩

/-- C4: constructing `OneFormerConfig` with a supplied backbone
configuration (object or dictionary) succeeds for every backbone
discriminator in `swin`, `dinat`, `maskformer-swin`, and fails with the
backbone `ValueError` for any discriminator outside that set. -/
theorem claim4_backbone_validation (bc : BackboneConfig) (d d2 : Dict) (s : List Char)
    (hd : popKey d (cs "model_type") = some (CVal.strv s, d2)) :
    ((bc.model_type ∈ backbones_supported →
        ∃ c, OneFormerConfig.init Option.none (BackboneArg.obj bc) Option.none Option.none
          = Except.ok c) ∧
     (bc.model_type ∉ backbones_supported →
        OneFormerConfig.init Option.none (BackboneArg.obj bc) Option.none Option.none
          = Except.error (ConfigErr.valueError (backboneErrMsg bc.model_type)))) ∧
    ((s ∈ backbones_supported →
        ∃ c, OneFormerConfig.init Option.none (BackboneArg.fromDict d) Option.none Option.none
          = Except.ok c) ∧
     (s ∉ backbones_supported →
        OneFormerConfig.init Option.none (BackboneArg.fromDict d) Option.none Option.none
          = Except.error (ConfigErr.valueError (backboneErrMsg s)))) := by
  refine ⟨⟨?_, ?_⟩, ?_, ?_⟩
  · intro hmem
    exact ⟨_, init_ok_of_setup _ bc (by simp [setup_backbone, hmem])⟩
  · intro hmem
    have hsb : setup_backbone (BackboneArg.obj bc)
        = Except.error (ConfigErr.valueError (backboneErrMsg bc.model_type)) := by
      simp [setup_backbone, hmem]
    unfold OneFormerConfig.init
    rw [hsb]
  · intro hmem
    have hsb : setup_backbone (BackboneArg.fromDict d) = Except.ok ⟨s, d2⟩ := by
      simp [setup_backbone, hd, hmem]
    exact ⟨_, init_ok_of_setup _ _ hsb⟩
  · intro hmem
    have hsb : setup_backbone (BackboneArg.fromDict d)
        = Except.error (ConfigErr.valueError (backboneErrMsg s)) := by
      simp [setup_backbone, hd, hmem]
    unfold OneFormerConfig.init
    rw [hsb]

/-- C4, witness: a `swin` object and a `dinat` dictionary construct; a
`resnet` object and a `resnet` dictionary fail with the backbone
`ValueError`. -/
theorem claim4_witness :
    (∃ c, OneFormerConfig.init Option.none (BackboneArg.obj ⟨cs "swin", []⟩) Option.none
        Option.none = Except.ok c) ∧
    OneFormerConfig.init Option.none (BackboneArg.obj ⟨cs "resnet", []⟩) Option.none Option.none
      = Except.error (ConfigErr.valueError (backboneErrMsg (cs "resnet"))) ∧
    (∃ c, OneFormerConfig.init Option.none
        (BackboneArg.fromDict [(cs "model_type", CVal.strv (cs "dinat"))]) Option.none
        Option.none = Except.ok c) ∧
    OneFormerConfig.init Option.none
        (BackboneArg.fromDict [(cs "model_type", CVal.strv (cs "resnet"))]) Option.none
        Option.none = Except.error (ConfigErr.valueError (backboneErrMsg (cs "resnet"))) := by
  have h1 := claim4_backbone_validation ⟨cs "swin", []⟩
    [(cs "model_type", CVal.strv (cs "dinat"))] [] (cs "dinat") (by decide)
  have h2 := claim4_backbone_validation ⟨cs "resnet", []⟩
    [(cs "model_type", CVal.strv (cs "resnet"))] [] (cs "resnet") (by decide)
  exact ⟨h1.1.1 (by decide), h2.1.2 (by decide), h1.2.1 (by decide), h2.2.2 (by decide)⟩

/-- C5: for every decoder and general sub-record accepted at construction,
the composite config's `hidden_size`, `num_attention_heads` and
`num_hidden_layers` equal the decoder record's `hidden_dim`, `num_heads`
and `decoder_layers`, and its `init_std` and `init_xavier_std` equal the
general record's fields of the same names. -/
theorem claim5_derived_fields (g d : Dict) (vh vn vl vs vx : CVal)
    (h1 : dlookup d (cs "hidden_dim") = some vh)
    (h2 : dlookup d (cs "num_heads") = some vn)
    (h3 : dlookup d (cs "decoder_layers") = some vl)
    (h4 : dlookup g (cs "init_std") = some vs)
    (h5 : dlookup g (cs "init_xavier_std") = some vx) :
    ∃ c, OneFormerConfig.init (some g) BackboneArg.unspecified Option.none (some d)
        = Except.ok c ∧ c.hidden_size = vh ∧ c.num_attention_heads = vn ∧
        c.num_hidden_layers = vl ∧ c.init_std = vs ∧ c.init_xavier_std = vx := by
  refine ⟨⟨g, defaultBackboneConfig, defaultTextEncoderConfig, d, vh, vn, vl, vs, vx⟩, ?_,
    rfl, rfl, rfl, rfl, rfl⟩
  simp [OneFormerConfig.init, setup_backbone, h1, h2, h3, h4, h5]

/-- C5, witness: supplying the default general and decoder dictionaries
explicitly yields the documented derived values. -/
theorem claim5_witness :
    ∃ c, OneFormerConfig.init (some defaultGeneralConfig) BackboneArg.unspecified Option.none
        (some defaultDecoderConfig) = Except.ok c ∧
      c.hidden_size = CVal.num 256 ∧ c.num_attention_heads = CVal.num 8 ∧
      c.num_hidden_layers = CVal.num 10 ∧ c.init_std = CVal.num 0.02 ∧
      c.init_xavier_std = CVal.num 1.0 :=
  claim5_derived_fields _ _ _ _ _ _ _ rfl rfl rfl rfl rfl

/-- C6: serializing any `OneFormerConfig` yields a snapshot whose
`backbone_config` entry is the backbone sub-record's own recursively
serialized dictionary (not the nested object) and whose `model_type` entry
is the literal string `oneformer`, regardless of the instance's fields. -/
theorem claim6_serialization (c : OneFormerConfig) :
    slookup c.to_dict (cs "backbone_config") = some (SVal.dict c.backbone_config.to_dict) ∧
    slookup c.to_dict (cs "model_type") = some (SVal.prim (CVal.strv (cs "oneformer"))) :=
  ⟨rfl, rfl⟩

/-- C7: the stem-convolution kernel `model/encoder/stem_conv/kernel` of
shape `(h, w, 3, 768)` maps to
`model.encoder.embeddings.patch_embeddings.projection.weight` with axes
permuted to `(768, 3, h, w)`, and the stem-convolution bias of shape
`(768,)` maps unchanged to the bias name under the same projection path,
`model.` prefix included. -/
theorem claim7_stem_conv (h w : Nat) (pk pb : Tensor)
    (hk : pk.shape = [h, w, 3, 768]) (hb : pb.shape = [768]) :
    (rename_key (cs "model/encoder/stem_conv/kernel") pk).1
      = cs "model.encoder.embeddings.patch_embeddings.projection.weight" ∧
    (rename_key (cs "model/encoder/stem_conv/kernel") pk).2.shape = [768, 3, h, w] ∧
    rename_key (cs "model/encoder/stem_conv/bias") pb
      = (cs "model.encoder.embeddings.patch_embeddings.projection.bias", pb) := by
  refine ⟨?_, ?_, ?_⟩
  · rw [rename_key_fst]
    decide
  · rw [rename_key_snd, shapeAdapt_id _ _ (by decide) (by decide),
      kernelAdapt_patch _ _ (by decide) (by decide)]
    exact transpose4_shape pk h w 3 768 hk
  · rw [rename_key_eq, shapeAdapt_id _ _ (by decide) (by decide),
      kernelAdapt_id _ _ (by decide)]
    simp only [Prod.mk.injEq]
    exact ⟨by decide, trivial⟩

/-- C7, witness: the two stem-convolution variables at `h = w = 1`. -/
theorem claim7_witness :
    (rename_key (cs "model/encoder/stem_conv/kernel") tStem).1
      = cs "model.encoder.embeddings.patch_embeddings.projection.weight" ∧
    (rename_key (cs "model/encoder/stem_conv/kernel") tStem).2.shape = [768, 3, 1, 1] ∧
    rename_key (cs "model/encoder/stem_conv/bias") tBias
      = (cs "model.encoder.embeddings.patch_embeddings.projection.bias", tBias) :=
  claim7_stem_conv 1 1 tStem tBias rfl rfl

/-- C8: `rename_key` is deterministic and stateless in the embedding: two
invocations on the same input are equal, and in the driver's rewrite loop
the output for an entry is `rename_key` of that entry alone, independent of
the surrounding entries and of their order. -/
theorem claim8_purity (n : List Char) (p : Tensor) (l1 l2 : List (List Char × Tensor)) :
    processAll (l1 ++ (n, p) :: l2) = processAll l1 ++ rename_key n p :: processAll l2 ∧
    rename_key n p = rename_key n p := by
  refine ⟨?_, rfl⟩
  simp [processAll]

/-- C9: after the driver collects every rewritten parameter into the state
dictionary, the single tying step makes the `lm_head.weight` entry the very
tensor stored under `model.decoder.embed_tokens.weight`, leaves every other
key unchanged, and afterwards the two entries are equal. -/
theorem claim9_tying (vars : List (List Char × Tensor)) (t : Tensor)
    (ht : buildStateDict vars embedTokensKey = some t) :
    ∃ d, convertStateDict vars = some d ∧ d lmHeadKey = some t ∧ d embedTokensKey = some t ∧
      ∀ q, q ≠ lmHeadKey → d q = buildStateDict vars q := by
  refine ⟨fun q => if q = lmHeadKey then some t else buildStateDict vars q, ?_, ?_, ?_, ?_⟩
  · unfold convertStateDict tieLmHead
    rw [ht]
  · simp
  · show (if embedTokensKey = lmHeadKey then some t else buildStateDict vars embedTokensKey)
        = some t
    rw [if_neg (by decide : ¬ embedTokensKey = lmHeadKey)]
    exact ht
  · intro q hq
    show (if q = lmHeadKey then some t else buildStateDict vars q) = buildStateDict vars q
    rw [if_neg hq]

/-- C9, witness: a one-variable checkpoint containing the decoder token
embedding. -/
theorem claim9_witness :
    ∃ d, convertStateDict varsWitness = some d ∧ d lmHeadKey = some tQkv ∧
      d embedTokensKey = some tQkv ∧
      ∀ q, q ≠ lmHeadKey → d q = buildStateDict varsWitness q :=
  claim9_tying varsWitness tQkv (by decide)

/-- C10: a supplied decoder dictionary missing `hidden_dim`, `num_heads` or
`decoder_layers`, or a supplied general dictionary missing `init_std` or
`init_xavier_std`, makes `OneFormerConfig` construction fail with a
missing-key `KeyError` (not the `ValueError` of the configuration-error
taxonomy); supplied sub-records are never completed with the defaults. -/
theorem claim10_missing_subrecord_keys (g d : Dict)
    (hmiss : dlookup d (cs "hidden_dim") = Option.none ∨
      dlookup d (cs "num_heads") = Option.none ∨
      dlookup d (cs "decoder_layers") = Option.none ∨
      dlookup g (cs "init_std") = Option.none ∨
      dlookup g (cs "init_xavier_std") = Option.none) :
    ∃ k, OneFormerConfig.init (some g) BackboneArg.unspecified Option.none (some d)
        = Except.error (ConfigErr.keyError k) := by
  rcases hv1 : dlookup d (cs "hidden_dim") with _ | v1
  · exact ⟨cs "hidden_dim", by simp [OneFormerConfig.init, setup_backbone, hv1]⟩
  · rcases hv2 : dlookup d (cs "num_heads") with _ | v2
    · exact ⟨cs "num_heads", by simp [OneFormerConfig.init, setup_backbone, hv1, hv2]⟩
    · rcases hv3 : dlookup d (cs "decoder_layers") with _ | v3
      · exact ⟨cs "decoder_layers",
          by simp [OneFormerConfig.init, setup_backbone, hv1, hv2, hv3]⟩
      · rcases hv4 : dlookup g (cs "init_std") with _ | v4
        · exact ⟨cs "init_std",
            by simp [OneFormerConfig.init, setup_backbone, hv1, hv2, hv3, hv4]⟩
        · rcases hv5 : dlookup g (cs "init_xavier_std") with _ | v5
          · exact ⟨cs "init_xavier_std",
              by simp [OneFormerConfig.init, setup_backbone, hv1, hv2, hv3, hv4, hv5]⟩
          · simp [hv1, hv2, hv3, hv4, hv5] at hmiss

/-- C10, witness: empty supplied general and decoder dictionaries. -/
theorem claim10_witness :
    ∃ k, OneFormerConfig.init (some []) BackboneArg.unspecified Option.none (some [])
        = Except.error (ConfigErr.keyError k) :=
  claim10_missing_subrecord_keys [] [] (Or.inl rfl)
